import Mathlib

/-!
Verification of the transcription pipeline of the voice-transcript repository.

The embedding models `src/services/media_service.py` (the orchestrator
`MediaService.transcribe_audio`, the direct path `_transcribe_single_audio`,
the chunked path `_transcribe_with_ffmpeg_chunking` with its inner task
`transcribe_chunk_with_limit`) and `src/clients/openrouter_api.py`
(`OpenRouterAPI.transcribe_audio`).

Python byte sizes divided by `1024 * 1024` are modelled over `ℚ`.  Every
size that actually occurs is an integer number of bytes and every constant
of the code (`0.01`, `9.5`, `0.85`, `30`, `10`) is exactly representable,
and all divisions are by powers of two, so the rational model agrees with
the IEEE-754 doubles computed by Python on all realistic inputs.
-/

namespace VoiceTranscript

/-- Outcome of the HTTP POST issued by `OpenRouterAPI.transcribe_audio`:
a 200 response carrying the (possibly empty) message content, a 413
"Request Entity Too Large" response, any other non-200 status, or a
raised exception (timeout, connection error, ...). -/
inductive ApiResponse where
  | ok (text : String)
  | tooLarge
  | otherError
  | exn
deriving DecidableEq, Repr

/-- `OpenRouterAPI.transcribe_audio` (src/clients/openrouter_api.py,
lines 51-88): returns the response content on status 200, and `None`
on a 413 status, on any other non-200 status, and on an exception.
All failure branches only differ in what they print. -/
def OpenRouterAPI.transcribe_audio : ApiResponse → Option String
  | ApiResponse.ok text => some text
  | ApiResponse.tooLarge => none
  | ApiResponse.otherError => none
  | ApiResponse.exn => none

/-- Python truthiness of an `Optional[str]`: `None` and `""` are falsy. -/
def pyTruthy : Option String → Bool
  | none => false
  | some s => !(s == "")

/-- Resource/call accounting of one pipeline run: temp directories
created by `tempfile.mkdtemp` and removed by `shutil.rmtree`, chunk
files created by the ffmpeg segment command and deleted by `os.remove`,
remote API calls issued, and ffmpeg split invocations. -/
structure RunLog where
  dirsCreated : Nat
  dirsRemoved : Nat
  filesCreated : Nat
  filesDeleted : Nat
  remoteCalls : Nat
  splitCalls : Nat
deriving DecidableEq, Repr

def RunLog.zero : RunLog := ⟨0, 0, 0, 0, 0, 0⟩

def RunLog.add (a b : RunLog) : RunLog :=
  ⟨a.dirsCreated + b.dirsCreated, a.dirsRemoved + b.dirsRemoved,
   a.filesCreated + b.filesCreated, a.filesDeleted + b.filesDeleted,
   a.remoteCalls + b.remoteCalls, a.splitCalls + b.splitCalls⟩

/-- A local audio file together with the behaviour of the environment on
it: its size in bytes, what `ffprobe` reports for its duration (`none`
models both a non-zero return code and an exception), whether the ffmpeg
segment command succeeds on it (after the copy and the re-encode
attempt), the ordered segment files that command produces, and what the
remote endpoint answers if the file is sent directly
(`none` models an exception raised before the request is issued). -/
inductive AudioFile where
  | mk (sizeBytes : ℚ) (probe : Option ℚ) (splitOk : Bool)
       (chunks : List AudioFile) (response : Option ApiResponse)

def AudioFile.sizeBytes : AudioFile → ℚ
  | .mk s _ _ _ _ => s

def AudioFile.probe : AudioFile → Option ℚ
  | .mk _ p _ _ _ => p

def AudioFile.splitOk : AudioFile → Bool
  | .mk _ _ o _ _ => o

def AudioFile.chunks : AudioFile → List AudioFile
  | .mk _ _ _ c _ => c

def AudioFile.response : AudioFile → Option ApiResponse
  | .mk _ _ _ _ r => r

/-- `MediaService._transcribe_single_audio` (media_service.py, lines
734-755): read and base64-encode the file, issue one remote call, and
return the result if it is truthy, `None` otherwise (both the
`result is None` branch and the empty-string `else` branch return
`None`); an exception anywhere returns `None`. -/
def MediaService.transcribe_single_audio (resp : Option ApiResponse) :
    Option String × RunLog :=
  match resp with
  | none => (none, RunLog.zero)
  | some r =>
    match OpenRouterAPI.transcribe_audio r with
    | some t =>
      ((if t == "" then none else some t), { RunLog.zero with remoteCalls := 1 })
    | none => (none, { RunLog.zero with remoteCalls := 1 })

/-- The log state right after `tempfile.mkdtemp` and an ffmpeg segment
invocation that did not yield usable chunks: one directory created,
one split attempted, nothing removed.  On the two early `return None`
paths of the code (split command failed; zero chunk files produced)
this is the final log of the invocation. -/
def mkdtempLog : RunLog := { RunLog.zero with dirsCreated := 1, splitCalls := 1 }

/-- Tail of the per-chunk task `transcribe_chunk_with_limit`
(media_service.py, lines 662-679): `if text: return text / else: return
None`, and the `finally:` block that deletes the chunk file exactly
once. -/
def chunkOutcomePost (p : Option String × RunLog) : Option String × RunLog :=
  ((if pyTruthy p.1 then p.1 else none),
   { p.2 with filesDeleted := p.2.filesDeleted + 1 })

/-- Fan-in of `_transcribe_with_ffmpeg_chunking` (media_service.py,
lines 687-718): `asyncio.gather` collects the per-chunk outcomes in
task-index order, truthy results are kept in that order, the temp
directory is removed, and the merge returns the `"\n\n"`-joined
transcriptions, or `None` if none survived. -/
def mergeOutcomes (outcomes : List (Option String × RunLog)) (nChunks : Nat) :
    Option String × RunLog :=
  ((if (outcomes.filterMap (fun o => if pyTruthy o.1 then o.1 else none)).isEmpty
    then none
    else some (String.intercalate "\n\n"
      (outcomes.filterMap (fun o => if pyTruthy o.1 then o.1 else none)))),
   (outcomes.map Prod.snd).foldl RunLog.add
     { RunLog.zero with dirsCreated := 1, dirsRemoved := 1, splitCalls := 1, filesCreated := nChunks })

/-- `MediaService._transcribe_with_ffmpeg_chunking` (media_service.py,
lines 507-732).  In source order: the recursion-depth ceiling
(`MAX_RECURSION = 3`), the ffmpeg availability check, the ffprobe
duration probe (fatal on failure), the chunk-duration computation with
safety margin 0.85 and its 30-second floor, `tempfile.mkdtemp`, the
single-pass segment split (early `return None` if it fails or produces
zero files — note: without removing the temp directory), and the
concurrent fan-out over `transcribe_chunk_with_limit` followed by the
ordered merge.  The per-chunk task is inlined here exactly as the
Python closure is; `MediaService.transcribe_chunk_with_limit` below
restates it as a named function. -/
def MediaService.transcribeWithChunking (ffmpegOk : Bool) (file : AudioFile)
    (max_chunk_size_mb : ℚ) (recursion_depth : Nat) : Option String × RunLog :=
  if _h : 3 ≤ recursion_depth then (none, RunLog.zero)
  else if ffmpegOk = false then (none, RunLog.zero)
  else
    match file.probe with
    | none => (none, RunLog.zero)
    | some duration =>
      if max_chunk_size_mb * (85 / 100) / (file.sizeBytes / (1024 * 1024)) * duration < 30 then
        (none, RunLog.zero)
      else if file.splitOk = false then (none, mkdtempLog)
      else if file.chunks.isEmpty then (none, mkdtempLog)
      else
        mergeOutcomes
          (file.chunks.map (fun c =>
            chunkOutcomePost
              (if c.sizeBytes / (1024 * 1024) < 1 / 100 then (none, RunLog.zero)
               else if c.sizeBytes / (1024 * 1024) > 19 / 2 then
                 MediaService.transcribeWithChunking ffmpegOk c max_chunk_size_mb
                   (recursion_depth + 1)
               else MediaService.transcribe_single_audio c.response)))
          file.chunks.length
termination_by 3 - recursion_depth
decreasing_by simp_wf; omega

/-- The inner task `transcribe_chunk_with_limit` (media_service.py,
lines 642-679), named: under the semaphore, skip a near-zero chunk
(< 0.01 MB), re-split a chunk above the stricter 9.5 MB threshold by
recursing at `recursion_depth + 1` with the same budget, otherwise
transcribe it directly; return the text only if truthy; delete the
chunk file in `finally`. -/
def MediaService.transcribe_chunk_with_limit (ffmpegOk : Bool)
    (max_chunk_size_mb : ℚ) (recursion_depth : Nat) (c : AudioFile) :
    Option String × RunLog :=
  chunkOutcomePost
    (if c.sizeBytes / (1024 * 1024) < 1 / 100 then (none, RunLog.zero)
     else if c.sizeBytes / (1024 * 1024) > 19 / 2 then
       MediaService.transcribeWithChunking ffmpegOk c max_chunk_size_mb
         (recursion_depth + 1)
     else MediaService.transcribe_single_audio c.response)

/-- `MediaService.transcribe_audio` (media_service.py, lines 757-776):
direct single call when the file size is at most `MAX_FILE_SIZE_MB`,
otherwise the chunked path at depth 0 with the same limit as budget. -/
def MediaService.transcribe_audio (ffmpegOk : Bool) (file : AudioFile)
    (max_file_size_mb : ℚ) : Option String × RunLog :=
  if file.sizeBytes / (1024 * 1024) ≤ max_file_size_mb then
    MediaService.transcribe_single_audio file.response
  else
    MediaService.transcribeWithChunking ffmpegOk file max_file_size_mb 0

/-! ### Completion-order model of the `asyncio.gather` fan-in

`_transcribe_with_ffmpeg_chunking` creates one task per chunk and
collects them with `results = await asyncio.gather(*tasks)`
(media_service.py, lines 682-690).  `gather` stores each task's result
in the slot of the task's index as that task completes, in whatever
order the completions happen, and hands back the slot list in index
order once all slots are filled.  `scheduleSlots` executes a given
completion order over the slot array and `gatherMergeOrdered` applies
the merge of lines 693-715 to the outcome. -/

/-- Slot array of `asyncio.gather`: slots start out pending (`none`)
and the completion events listed in `order` each store their task's
result at their own index. -/
def scheduleSlots (tasks : List (Option String)) (order : List Nat) :
    List (Option (Option String)) :=
  order.foldl (fun slots i => slots.set i tasks[i]?) (List.replicate tasks.length none)

/-- The transcription list a given completion order leaves in the
gather slots: completed truthy results in slot (index) order, exactly
the `elif result: transcriptions.append(result)` filter of lines
693-699. -/
def gatherTranscriptions (tasks : List (Option String)) (order : List Nat) :
    List String :=
  (scheduleSlots tasks order).filterMap (fun s =>
    match s with
    | some r => if pyTruthy r then r else none
    | none => none)

/-- The merged transcript produced from a given completion order
(media_service.py, lines 711-718). -/
def gatherMergeOrdered (tasks : List (Option String)) (order : List Nat) :
    Option String :=
  if (gatherTranscriptions tasks order).isEmpty then none
  else some (String.intercalate "\n\n" (gatherTranscriptions tasks order))

theorem length_foldl_set {α : Type} (f : Nat → α) (order : List Nat) :
    ∀ init : List α,
      (order.foldl (fun s i => s.set i (f i)) init).length = init.length := by
  induction order with
  | nil => intro init; rfl
  | cons i rest ih =>
    intro init
    simpa [List.length_set] using ih (init.set i (f i))

theorem getElem?_foldl_set {α : Type} (f : Nat → α) (order : List Nat) :
    ∀ (init : List α) (j : Nat),
      (order.foldl (fun s i => s.set i (f i)) init)[j]?
        = if j ∈ order ∧ j < init.length then some (f j) else init[j]? := by
  induction order with
  | nil => intro init j; simp
  | cons i rest ih =>
    intro init j
    simp only [List.foldl_cons]
    rw [ih (init.set i (f i)) j, List.length_set, List.getElem?_set]
    by_cases hj : j < init.length
    · by_cases hmem : j ∈ rest
      · simp [hmem, hj]
      · by_cases hij : i = j
        · subst hij
          simp [hmem, hj, List.mem_cons]
        · have hji : j ≠ i := fun hc => hij hc.symm
          simp [hmem, hj, hij, hji, List.mem_cons]
    · have h1 : ¬ (j ∈ rest ∧ j < init.length) := fun hc => hj hc.2
      have h2 : ¬ (j ∈ i :: rest ∧ j < init.length) := fun hc => hj hc.2
      have hout : init[j]? = none := List.getElem?_eq_none (by omega)
      rw [if_neg h1, if_neg h2]
      by_cases hij : i = j
      · subst hij
        simp [hout, hj]
      · simp [hij, hout]

/-- Gather semantics: once every task index has completed — in any
order — the slot array holds every task's result at the task's own
index, i.e. it equals the task list in index order. -/
theorem scheduleSlots_of_perm (tasks : List (Option String)) (order : List Nat)
    (h : order.Perm (List.range tasks.length)) :
    scheduleSlots tasks order = tasks.map some := by
  apply List.ext_getElem?
  intro j
  unfold scheduleSlots
  rw [getElem?_foldl_set (fun i => tasks[i]?) order (List.replicate tasks.length none) j]
  rw [List.length_replicate, List.getElem?_map, List.getElem?_replicate]
  have hmem : j ∈ order ↔ j < tasks.length := by
    rw [h.mem_iff, List.mem_range]
  by_cases hj : j < tasks.length
  · have ht : tasks[j]? = some tasks[j] := List.getElem?_eq_getElem hj
    simp [hmem, hj, ht]
  · have ht : tasks[j]? = none := List.getElem?_eq_none (by omega)
    simp [hmem, hj, ht]

/-- The transcription list is completion-order independent: it is the
index-ordered list of truthy task results. -/
theorem gatherTranscriptions_of_perm (tasks : List (Option String))
    (order : List Nat) (h : order.Perm (List.range tasks.length)) :
    gatherTranscriptions tasks order
      = tasks.filterMap (fun r => if pyTruthy r then r else none) := by
  unfold gatherTranscriptions
  rw [scheduleSlots_of_perm tasks order h, List.filterMap_map]
  rfl

/-! ### Interleaving model of the concurrency cap

`_transcribe_with_ffmpeg_chunking` (media_service.py, lines 638-644)
declares `MAX_CONCURRENT_TRANSCRIPTIONS = 5`, creates
`semaphore = asyncio.Semaphore(MAX_CONCURRENT_TRANSCRIPTIONS)`, and
every per-chunk task of the invocation wraps its whole body — in
particular its remote transcription call — in `async with semaphore`.
A task therefore has three phases: waiting for the semaphore, holding
it (the only phase in which its remote call can be in flight), and
finished.  `SemStep` is the interleaving semantics: an acquire is only
enabled while fewer than `MAX_CONCURRENT_TRANSCRIPTIONS` tasks hold
the semaphore. -/

def MAX_CONCURRENT_TRANSCRIPTIONS : Nat := 5

inductive TaskPhase where
  | waiting
  | holding
  | finished
deriving DecidableEq, Repr

/-- Number of tasks currently inside `async with semaphore`, i.e. whose
remote transcription call may be executing. -/
def holdingCount (s : List TaskPhase) : Nat :=
  s.countP (fun p => p == TaskPhase.holding)

/-- One scheduler step of the fan-out of a single
`_transcribe_with_ffmpeg_chunking` invocation: a waiting task may enter
`async with semaphore` only while the semaphore has a free permit, and
a holding task may finish and release its permit.  No other transition
touches the semaphore. -/
inductive SemStep : List TaskPhase → List TaskPhase → Prop
  | acquire (s : List TaskPhase) (i : Nat) (hi : s[i]? = some TaskPhase.waiting)
      (hcap : holdingCount s < MAX_CONCURRENT_TRANSCRIPTIONS) :
      SemStep s (s.set i TaskPhase.holding)
  | release (s : List TaskPhase) (i : Nat) (hi : s[i]? = some TaskPhase.holding) :
      SemStep s (s.set i TaskPhase.finished)

/-- States reachable by interleaving the per-chunk tasks of one
invocation, starting from all of the invocation's tasks waiting. -/
inductive SemReachable : List TaskPhase → Prop
  | init (n : Nat) : SemReachable (List.replicate n TaskPhase.waiting)
  | step {s t : List TaskPhase} : SemReachable s → SemStep s t → SemReachable t

theorem holdingCount_set_acquire (s : List TaskPhase) (i : Nat)
    (hi : s[i]? = some TaskPhase.waiting) :
    holdingCount (s.set i TaskPhase.holding) = holdingCount s + 1 := by
  have hlt : i < s.length := by
    by_contra hc
    rw [List.getElem?_eq_none (by omega)] at hi
    exact Option.noConfusion hi
  have hgi : s[i] = TaskPhase.waiting := by
    have hg := List.getElem?_eq_getElem hlt
    rw [hg] at hi
    exact Option.some_inj.mp hi.symm |>.symm
  unfold holdingCount
  rw [List.countP_set _ _ _ _ hlt, hgi]
  simp

theorem holdingCount_set_release (s : List TaskPhase) (i : Nat)
    (hi : s[i]? = some TaskPhase.holding) :
    holdingCount (s.set i TaskPhase.finished) = holdingCount s - 1 := by
  have hlt : i < s.length := by
    by_contra hc
    rw [List.getElem?_eq_none (by omega)] at hi
    exact Option.noConfusion hi
  have hgi : s[i] = TaskPhase.holding := by
    have hg := List.getElem?_eq_getElem hlt
    rw [hg] at hi
    exact Option.some_inj.mp hi.symm |>.symm
  unfold holdingCount
  rw [List.countP_set _ _ _ _ hlt, hgi]
  simp

/-! ### Shared helpers for the claim statements -/

/-- Results, in chunk-index order, of the per-chunk tasks of one
fan-out (the first components the tasks hand to `asyncio.gather`). -/
def taskResults (ffmpegOk : Bool) (m : ℚ) (d : Nat) (f : AudioFile) :
    List (Option String) :=
  f.chunks.map (fun c => (MediaService.transcribe_chunk_with_limit ffmpegOk m d c).1)

/-- The texts of the successfully transcribed chunks, in chunk-index
order (a failed chunk's `None` contributes nothing). -/
def successTexts (ffmpegOk : Bool) (m : ℚ) (d : Nat) (f : AudioFile) :
    List String :=
  (taskResults ffmpegOk m d f).filterMap (fun r => if pyTruthy r then r else none)

/-- Unfolding of the chunked pipeline when the fan-out stage is
reached: depth below the ceiling, ffmpeg present, probe succeeded,
chunk duration at least the 30 s floor, split succeeded with at least
one chunk. -/
theorem transcribeWithChunking_fanout (f : AudioFile) (m : ℚ) (d : Nat) (dur : ℚ)
    (hd : ¬ 3 ≤ d) (hprobe : f.probe = some dur)
    (hdur : ¬ m * (85 / 100) / (f.sizeBytes / (1024 * 1024)) * dur < 30)
    (hsplit : f.splitOk = true) (hne : f.chunks.isEmpty = false) :
    MediaService.transcribeWithChunking true f m d
      = mergeOutcomes (f.chunks.map (MediaService.transcribe_chunk_with_limit true m d))
          f.chunks.length := by
  rw [MediaService.transcribeWithChunking.eq_def]
  rw [dif_neg hd, if_neg (by simp), hprobe]
  simp only [if_neg hdur, hsplit, hne, Bool.true_eq_false, if_neg (fun hc : False => hc)]
  rfl

/-- The merged text of the fan-in is determined by the index-ordered
success texts. -/
theorem mergeOutcomes_fst (f : AudioFile) (m : ℚ) (d : Nat) :
    (mergeOutcomes (f.chunks.map (MediaService.transcribe_chunk_with_limit true m d))
        f.chunks.length).1
      = (if (successTexts true m d f).isEmpty then none
         else some (String.intercalate "\n\n" (successTexts true m d f))) := by
  unfold mergeOutcomes successTexts taskResults
  rw [List.filterMap_map, List.filterMap_map]
  rfl

/-! ### Claim theorems -/

/-- Claim C10: at no point during one chunked fan-out do more than 5
remote transcription calls of that invocation execute simultaneously:
every per-chunk task enters `async with semaphore` — a counting
semaphore capped at `MAX_CONCURRENT_TRANSCRIPTIONS = 5` — before
issuing its remote call, so in every state reachable by any
interleaving of the invocation's tasks at most 5 of them are inside
the semaphore (each recursive invocation instantiates its own
semaphore; the bound stated here is per invocation, matching the
spec's "calls originating from one `ChunkScheduler.run`"). -/
theorem semaphore_caps_concurrent_calls {s : List TaskPhase}
    (h : SemReachable s) : holdingCount s ≤ MAX_CONCURRENT_TRANSCRIPTIONS := by
  induction h with
  | init n =>
    have h0 : holdingCount (List.replicate n TaskPhase.waiting) = 0 := by
      unfold holdingCount
      rw [List.countP_eq_zero]
      intro a ha
      rw [List.eq_of_mem_replicate ha]
      decide
    rw [h0]
    exact Nat.zero_le _
  | @step s t hr hs ih =>
    cases hs with
    | acquire i hi hcap =>
      rw [holdingCount_set_acquire s i hi]
      omega
    | release i hi =>
      rw [holdingCount_set_release s i hi]
      omega

/-- Witness for C10: after seven tasks start and one acquires the
semaphore, the in-flight count is within the cap. -/
theorem semaphore_caps_concurrent_calls_witness :
    holdingCount ((List.replicate 7 TaskPhase.waiting).set 0 TaskPhase.holding)
      ≤ MAX_CONCURRENT_TRANSCRIPTIONS :=
  semaphore_caps_concurrent_calls
    (SemReachable.step (SemReachable.init 7)
      (SemStep.acquire (List.replicate 7 TaskPhase.waiting) 0 (by decide) (by decide)))

/-- Counterexample for C3: the client's return value on an HTTP 413 is
identical to its return value on any other non-200 status and on a
timeout/exception — all are `None` — so the caller cannot distinguish
a "payload too large" failure from any other failure. -/
theorem too_large_indistinguishable_cex :
    OpenRouterAPI.transcribe_audio ApiResponse.tooLarge
        = OpenRouterAPI.transcribe_audio ApiResponse.otherError
      ∧ OpenRouterAPI.transcribe_audio ApiResponse.tooLarge
        = OpenRouterAPI.transcribe_audio ApiResponse.exn
      ∧ OpenRouterAPI.transcribe_audio ApiResponse.tooLarge = none :=
  ⟨rfl, rfl, rfl⟩

/-- Claim C3 as amended: every failure of the remote transcriber —
413, any other non-200 status, timeout or exception — is collapsed
into the single untyped failure value `None`; failure kinds are
distinguishable only in the log output, not in the returned value. -/
theorem all_failures_collapse_to_none (r : ApiResponse)
    (h : ∀ t, r ≠ ApiResponse.ok t) :
    OpenRouterAPI.transcribe_audio r = none := by
  cases r with
  | ok t => exact absurd rfl (h t)
  | tooLarge => rfl
  | otherError => rfl
  | exn => rfl

/-- Witness for the amended C3 at the 413 response. -/
theorem all_failures_collapse_to_none_witness :
    OpenRouterAPI.transcribe_audio ApiResponse.tooLarge = none :=
  all_failures_collapse_to_none ApiResponse.tooLarge
    (fun _ hc => ApiResponse.noConfusion hc)

/-- A 1 MB chunk whose direct transcription succeeds with "hello". -/
def goodChunk : AudioFile := .mk 1048576 none true [] (some (ApiResponse.ok "hello"))

/-- A 1 MB chunk whose direct transcription fails (non-200 status). -/
def failChunk : AudioFile := .mk 1048576 none true [] (some ApiResponse.otherError)

/-- A 20 MB source whose duration probe fails but whose split and
chunk transcriptions would all succeed. -/
def probeFailFile : AudioFile := .mk 20971520 none true [goodChunk, goodChunk] none

/-- The same 20 MB source with a successful probe (3600 s). -/
def probeOkFile : AudioFile := .mk 20971520 (some 3600) true [goodChunk, goodChunk] none

/-- Counterexample for C4: on the chunked path a failed duration probe
alone makes the whole run return failure — the identical file with a
successful probe transcribes fully, so the failure is caused by the
probe, contradicting "probe failure is non-fatal". -/
theorem probe_failure_fatal_cex :
    (MediaService.transcribeWithChunking true probeFailFile 10 0).1 = none
      ∧ (MediaService.transcribeWithChunking true probeOkFile 10 0).1
          = some "hello\n\nhello" := by
  constructor
  · rw [MediaService.transcribeWithChunking.eq_def]
    norm_num [probeFailFile, AudioFile.probe]
  · rw [MediaService.transcribeWithChunking.eq_def]
    norm_num [MediaService.transcribe_single_audio, OpenRouterAPI.transcribe_audio,
      pyTruthy, chunkOutcomePost, mergeOutcomes, AudioFile.sizeBytes, AudioFile.response,
      AudioFile.probe, AudioFile.splitOk, AudioFile.chunks, probeOkFile, goodChunk,
      String.intercalate]
    decide

/-- Claim C4 as amended: on the chunked path a duration-probe failure
is fatal — the run returns `None` immediately, before any split is
attempted (empty resource log). -/
theorem probe_failure_aborts_chunked_run (f : AudioFile) (m : ℚ) (d : Nat)
    (hd : ¬ 3 ≤ d) (hprobe : f.probe = none) :
    MediaService.transcribeWithChunking true f m d = (none, RunLog.zero) := by
  rw [MediaService.transcribeWithChunking.eq_def, dif_neg hd, if_neg (by simp), hprobe]

/-- Witness for the amended C4. -/
theorem probe_failure_aborts_chunked_run_witness :
    MediaService.transcribeWithChunking true probeFailFile 10 0 = (none, RunLog.zero) :=
  probe_failure_aborts_chunked_run probeFailFile 10 0 (by omega) rfl

/-- Claim C6: for a file whose size is at most `MAX_FILE_SIZE_MB` the
orchestrator issues exactly one remote transcription call and never
invokes the segmenter (no split invocation, no temp directory); and
when that one call fails — including a 413 rejection — the result is a
terminal failure (`None`), never a fallback into the chunked path. -/
theorem direct_path_one_call_terminal (ffmpegOk : Bool) (f : AudioFile)
    (m : ℚ) (r : ApiResponse)
    (hsize : f.sizeBytes / (1024 * 1024) ≤ m)
    (hresp : f.response = some r) :
    (MediaService.transcribe_audio ffmpegOk f m).2.remoteCalls = 1
      ∧ (MediaService.transcribe_audio ffmpegOk f m).2.splitCalls = 0
      ∧ (MediaService.transcribe_audio ffmpegOk f m).2.dirsCreated = 0
      ∧ ((∀ t, r ≠ ApiResponse.ok t) →
          (MediaService.transcribe_audio ffmpegOk f m).1 = none) := by
  unfold MediaService.transcribe_audio
  rw [if_pos hsize, hresp]
  unfold MediaService.transcribe_single_audio
  cases r with
  | ok t => exact ⟨rfl, rfl, rfl, fun hterm => absurd rfl (hterm t)⟩
  | tooLarge => exact ⟨rfl, rfl, rfl, fun _ => rfl⟩
  | otherError => exact ⟨rfl, rfl, rfl, fun _ => rfl⟩
  | exn => exact ⟨rfl, rfl, rfl, fun _ => rfl⟩

/-- A 1 MB file that the remote endpoint rejects with 413 (a stale
size estimate scenario: locally measured small, remotely too large). -/
def staleSizeFile : AudioFile := .mk 1048576 none true [] (some ApiResponse.tooLarge)

/-- Witness for C6 at a direct-path file rejected with 413. -/
theorem direct_path_one_call_terminal_witness :
    (MediaService.transcribe_audio true staleSizeFile 10).2.remoteCalls = 1
      ∧ (MediaService.transcribe_audio true staleSizeFile 10).2.splitCalls = 0
      ∧ (MediaService.transcribe_audio true staleSizeFile 10).2.dirsCreated = 0
      ∧ ((∀ t, ApiResponse.tooLarge ≠ ApiResponse.ok t) →
          (MediaService.transcribe_audio true staleSizeFile 10).1 = none) :=
  direct_path_one_call_terminal true staleSizeFile 10 ApiResponse.tooLarge
    (by norm_num [staleSizeFile, AudioFile.sizeBytes]) rfl

/-- Claim C8: a chunk whose size is exactly the stricter re-check
threshold of 9.5 MB is NOT re-split — it is sent directly to the
remote transcriber — while a chunk strictly above 9.5 MB IS re-split
by recursively invoking the chunked pipeline on that one chunk at
`recursion_depth + 1` with the same size budget. -/
theorem recheck_threshold_boundary (ffmpegOk : Bool) (m : ℚ) (d : Nat)
    (c c' : AudioFile)
    (hat : c.sizeBytes / (1024 * 1024) = 19 / 2)
    (habove : c'.sizeBytes / (1024 * 1024) > 19 / 2) :
    MediaService.transcribe_chunk_with_limit ffmpegOk m d c
        = chunkOutcomePost (MediaService.transcribe_single_audio c.response)
      ∧ MediaService.transcribe_chunk_with_limit ffmpegOk m d c'
        = chunkOutcomePost (MediaService.transcribeWithChunking ffmpegOk c' m (d + 1)) := by
  constructor
  · unfold MediaService.transcribe_chunk_with_limit
    rw [hat]
    norm_num
  · unfold MediaService.transcribe_chunk_with_limit
    have h1 : ¬ c'.sizeBytes / (1024 * 1024) < 1 / 100 := by linarith
    rw [if_neg h1, if_pos habove]

/-- A chunk of exactly 9.5 MB (9961472 bytes). -/
def boundaryChunk : AudioFile := .mk 9961472 none true [] (some (ApiResponse.ok "edge"))

/-- A chunk of 11 MB (11534336 bytes), strictly above 9.5 MB. -/
def oversizedChunk : AudioFile := .mk 11534336 none true [] (some (ApiResponse.ok "big"))

/-- Witness for C8 at 9.5 MB and 11 MB chunks. -/
theorem recheck_threshold_boundary_witness :
    MediaService.transcribe_chunk_with_limit true 10 0 boundaryChunk
        = chunkOutcomePost (MediaService.transcribe_single_audio boundaryChunk.response)
      ∧ MediaService.transcribe_chunk_with_limit true 10 0 oversizedChunk
        = chunkOutcomePost (MediaService.transcribeWithChunking true oversizedChunk 10 1) :=
  recheck_threshold_boundary true 10 0 boundaryChunk oversizedChunk
    (by norm_num [boundaryChunk, AudioFile.sizeBytes])
    (by norm_num [oversizedChunk, AudioFile.sizeBytes])

/-- A 5000-byte chunk (0.0048 MB, below the ~10 KB skip threshold)
whose transcription would have succeeded had it been sent. -/
def tinyChunk : AudioFile := .mk 5000 none true [] (some (ApiResponse.ok "x"))

/-- A 20 MB source whose split produces a single near-zero chunk. -/
def tinyPlanFile : AudioFile := .mk 20971520 (some 3600) true [tinyChunk] none

/-- Counterexample for C9: the near-zero chunk is indeed skipped
without any remote call (`remoteCalls = 0`), but the run then returns
the all-chunks-failed failure `None` — the skipped chunk was counted
exactly like a failed chunk in the "all chunks failed" decision, not
as an empty success. -/
theorem skipped_chunk_counts_as_failed_cex :
    tinyChunk.sizeBytes / (1024 * 1024) < 1 / 100
      ∧ (MediaService.transcribeWithChunking true tinyPlanFile 10 0).1 = none
      ∧ (MediaService.transcribeWithChunking true tinyPlanFile 10 0).2.remoteCalls = 0 := by
  refine ⟨by norm_num [tinyChunk, AudioFile.sizeBytes], ?_, ?_⟩
  · rw [MediaService.transcribeWithChunking.eq_def]
    norm_num [MediaService.transcribe_single_audio, OpenRouterAPI.transcribe_audio,
      pyTruthy, chunkOutcomePost, mergeOutcomes, AudioFile.sizeBytes, AudioFile.response,
      AudioFile.probe, AudioFile.splitOk, AudioFile.chunks, tinyPlanFile, tinyChunk]
  · rw [MediaService.transcribeWithChunking.eq_def]
    norm_num [MediaService.transcribe_single_audio, OpenRouterAPI.transcribe_audio,
      pyTruthy, chunkOutcomePost, mergeOutcomes, AudioFile.sizeBytes, AudioFile.response,
      AudioFile.probe, AudioFile.splitOk, AudioFile.chunks, tinyPlanFile, tinyChunk,
      RunLog.add, RunLog.zero, mkdtempLog]

/-- Claim C9 as amended: a near-zero chunk (< 0.01 MB) is skipped
without any remote call and contributes nothing to the merged text,
but it is not recorded as an empty success: its outcome is the same
`None` as a failed chunk's, so it does count as failed when deciding
whether all chunks failed — a plan whose only chunk is near-zero
yields the all-chunks-failed failure. -/
theorem near_zero_chunk_skipped_as_failure (m : ℚ) (f c : AudioFile) (dur : ℚ)
    (hsmall : c.sizeBytes / (1024 * 1024) < 1 / 100)
    (hprobe : f.probe = some dur)
    (hdur : ¬ m * (85 / 100) / (f.sizeBytes / (1024 * 1024)) * dur < 30)
    (hsplit : f.splitOk = true)
    (hchunks : f.chunks = [c]) :
    MediaService.transcribe_chunk_with_limit true m 0 c
        = (none, { RunLog.zero with filesDeleted := 1 })
      ∧ (MediaService.transcribeWithChunking true f m 0).1 = none := by
  have htask : MediaService.transcribe_chunk_with_limit true m 0 c
      = (none, { RunLog.zero with filesDeleted := 1 }) := by
    unfold MediaService.transcribe_chunk_with_limit
    rw [if_pos hsmall]
    rfl
  refine ⟨htask, ?_⟩
  have hne : f.chunks.isEmpty = false := by rw [hchunks]; rfl
  rw [transcribeWithChunking_fanout f m 0 dur (by omega) hprobe hdur hsplit hne,
    mergeOutcomes_fst]
  have hnil : successTexts true m 0 f = [] := by
    unfold successTexts taskResults
    rw [hchunks, List.filterMap_map]
    simp [Function.comp, htask, pyTruthy]
  rw [hnil]
  rfl

/-- Witness for the amended C9 at the single-tiny-chunk plan. -/
theorem near_zero_chunk_skipped_as_failure_witness :
    MediaService.transcribe_chunk_with_limit true 10 0 tinyChunk
        = (none, { RunLog.zero with filesDeleted := 1 })
      ∧ (MediaService.transcribeWithChunking true tinyPlanFile 10 0).1 = none :=
  near_zero_chunk_skipped_as_failure 10 tinyPlanFile tinyChunk 3600
    (by norm_num [tinyChunk, AudioFile.sizeBytes]) rfl
    (by norm_num [tinyPlanFile, AudioFile.sizeBytes]) rfl rfl

/-- A 20 MB source with a valid probe whose ffmpeg segment command
fails (non-zero return code on both the copy and the re-encode
attempt). -/
def splitFailFile : AudioFile := .mk 20971520 (some 3600) false [] none

/-- Bug evidence for C2: when the ffmpeg split command fails, the code
takes the early `return None` at media_service.py line 613 — after
`tempfile.mkdtemp` at line 563 — without ever reaching the
`shutil.rmtree` of lines 703-709 (and no exception is raised, so the
handler's cleanup at lines 724-731 does not run either): the run ends
with one temp directory created and zero removed. -/
theorem split_failure_leaks_temp_dir :
    (MediaService.transcribeWithChunking true splitFailFile 10 0).1 = none
      ∧ (MediaService.transcribeWithChunking true splitFailFile 10 0).2.dirsCreated = 1
      ∧ (MediaService.transcribeWithChunking true splitFailFile 10 0).2.dirsRemoved = 0 := by
  refine ⟨?_, ?_, ?_⟩ <;>
    · rw [MediaService.transcribeWithChunking.eq_def]
      norm_num [splitFailFile, AudioFile.sizeBytes, AudioFile.probe, AudioFile.splitOk,
        mkdtempLog, RunLog.zero]

/-- Claim C7: when every chunk of a plan fails to transcribe (every
per-chunk task result is falsy), the chunked run returns the
all-chunks-failed failure `None`, never an empty-string success. -/
theorem all_chunks_failed_gives_failure (f : AudioFile) (m dur : ℚ)
    (hprobe : f.probe = some dur)
    (hdur : ¬ m * (85 / 100) / (f.sizeBytes / (1024 * 1024)) * dur < 30)
    (hsplit : f.splitOk = true) (hne : f.chunks.isEmpty = false)
    (hall : ∀ c ∈ f.chunks,
      pyTruthy (MediaService.transcribe_chunk_with_limit true m 0 c).1 = false) :
    (MediaService.transcribeWithChunking true f m 0).1 = none := by
  rw [transcribeWithChunking_fanout f m 0 dur (by omega) hprobe hdur hsplit hne,
    mergeOutcomes_fst]
  have hnil : successTexts true m 0 f = [] := by
    unfold successTexts taskResults
    rw [List.filterMap_map, List.filterMap_eq_nil_iff]
    intro c hc
    simp [Function.comp, hall c hc]
  rw [hnil]
  rfl

/-- A 20 MB source whose two chunks both fail at the remote endpoint. -/
def allFailFile : AudioFile := .mk 20971520 (some 3600) true [failChunk, failChunk] none

/-- Witness for C7 at a plan whose two chunks both fail. -/
theorem all_chunks_failed_gives_failure_witness :
    (MediaService.transcribeWithChunking true allFailFile 10 0).1 = none :=
  all_chunks_failed_gives_failure allFailFile 10 3600 rfl
    (by norm_num [allFailFile, AudioFile.sizeBytes]) rfl rfl
    (by
      intro c hc
      simp only [allFailFile, AudioFile.chunks, List.mem_cons, List.not_mem_nil,
        or_false, or_self] at hc
      subst hc
      norm_num [MediaService.transcribe_chunk_with_limit, chunkOutcomePost,
        MediaService.transcribe_single_audio, OpenRouterAPI.transcribe_audio, pyTruthy,
        AudioFile.sizeBytes, AudioFile.response, failChunk])

theorem filterMap_filter_of_none {α β : Type} (g : α → Option β) (Q : α → Bool)
    (l : List α) (h : ∀ c ∈ l, Q c = false → g c = none) :
    l.filterMap g = (l.filter Q).filterMap g := by
  induction l with
  | nil => rfl
  | cons c t ih =>
    have ht : t.filterMap g = (t.filter Q).filterMap g :=
      ih (fun x hx hq => h x (List.mem_cons.mpr (Or.inr hx)) hq)
    by_cases hq : Q c = true
    · rw [List.filter_cons_of_pos hq, List.filterMap_cons, List.filterMap_cons]
      cases hgc : g c <;> simp [hgc, ht]
    · have hq0 : Q c = false := by revert hq; cases Q c <;> simp
      have hgc : g c = none := h c (List.mem_cons_self c t) hq0
      rw [List.filter_cons_of_neg (by simp [hq0]), List.filterMap_cons, hgc, ht]

/-- The texts the merge would produce from only the chunks at or below
the 9.5 MB re-check threshold, in index order. -/
def siblingTexts (m : ℚ) (f : AudioFile) : List String :=
  ((f.chunks.filter (fun c => decide (c.sizeBytes / (1024 * 1024) ≤ 19 / 2))).map
    (fun c => (MediaService.transcribe_chunk_with_limit true m 2 c).1)).filterMap
    (fun r => if pyTruthy r then r else none)

/-- Claim C5: re-splitting is bounded by the hard depth ceiling
`MAX_RECURSION = 3` — any invocation at depth ≥ 3 returns failure
immediately without splitting anything (so the recursion terminates);
hence a chunk that is still oversized in a depth-2 plan becomes a
terminal per-chunk failure (its re-split attempt at depth 3 is
refused, its file is still deleted exactly once), and the plan's merge
is exactly the merge of the not-oversized sibling chunks — the
oversized chunk is dropped, the request as a whole is not failed. -/
theorem recursion_ceiling_drops_chunk_keeps_siblings (f : AudioFile) (m dur : ℚ)
    (hprobe : f.probe = some dur)
    (hdur : ¬ m * (85 / 100) / (f.sizeBytes / (1024 * 1024)) * dur < 30)
    (hsplit : f.splitOk = true) (hne : f.chunks.isEmpty = false) :
    (∀ (file : AudioFile) (budget : ℚ) (d : Nat), 3 ≤ d →
        MediaService.transcribeWithChunking true file budget d = (none, RunLog.zero))
      ∧ (∀ c ∈ f.chunks, 19 / 2 < c.sizeBytes / (1024 * 1024) →
          MediaService.transcribe_chunk_with_limit true m 2 c
            = (none, { RunLog.zero with filesDeleted := 1 }))
      ∧ (MediaService.transcribeWithChunking true f m 2).1
          = (if (siblingTexts m f).isEmpty then none
             else some (String.intercalate "\n\n" (siblingTexts m f))) := by
  have hceil : ∀ (file : AudioFile) (budget : ℚ) (d : Nat), 3 ≤ d →
      MediaService.transcribeWithChunking true file budget d = (none, RunLog.zero) := by
    intro file budget d hd3
    rw [MediaService.transcribeWithChunking.eq_def, dif_pos hd3]
  have hbig : ∀ c ∈ f.chunks, 19 / 2 < c.sizeBytes / (1024 * 1024) →
      MediaService.transcribe_chunk_with_limit true m 2 c
        = (none, { RunLog.zero with filesDeleted := 1 }) := by
    intro c _ hb
    unfold MediaService.transcribe_chunk_with_limit
    rw [if_neg (by linarith), if_pos hb, hceil c m (2 + 1) (by omega)]
    rfl
  refine ⟨hceil, hbig, ?_⟩
  rw [transcribeWithChunking_fanout f m 2 dur (by omega) hprobe hdur hsplit hne,
    mergeOutcomes_fst]
  have hsib : successTexts true m 2 f = siblingTexts m f := by
    unfold successTexts taskResults siblingTexts
    rw [List.filterMap_map, List.filterMap_map]
    apply filterMap_filter_of_none
    intro c hc hq
    have hb : 19 / 2 < c.sizeBytes / (1024 * 1024) := by
      have := of_decide_eq_false hq
      linarith [not_le.mp this]
    simp [Function.comp, hbig c hc hb, pyTruthy]
  rw [hsib]

/-- An 11 MB chunk that would still be oversized at depth 3. -/
def stubbornChunk : AudioFile := .mk 11534336 none true [] none

/-- A 20 MB depth-2 plan holding one persistently oversized chunk and
one well-behaved sibling. -/
def depth2File : AudioFile := .mk 20971520 (some 3600) true [stubbornChunk, goodChunk] none

/-- Witness for C5 at the depth-2 plan with a stubborn chunk. -/
theorem recursion_ceiling_drops_chunk_keeps_siblings_witness :
    (∀ (file : AudioFile) (budget : ℚ) (d : Nat), 3 ≤ d →
        MediaService.transcribeWithChunking true file budget d = (none, RunLog.zero))
      ∧ (∀ c ∈ depth2File.chunks, 19 / 2 < c.sizeBytes / (1024 * 1024) →
          MediaService.transcribe_chunk_with_limit true 10 2 c
            = (none, { RunLog.zero with filesDeleted := 1 }))
      ∧ (MediaService.transcribeWithChunking true depth2File 10 2).1
          = (if (siblingTexts 10 depth2File).isEmpty then none
             else some (String.intercalate "\n\n" (siblingTexts 10 depth2File))) :=
  recursion_ceiling_drops_chunk_keeps_siblings depth2File 10 3600 rfl
    (by norm_num [depth2File, AudioFile.sizeBytes]) rfl rfl

/-- Claim C1: for a file on the chunked path (size above the direct
limit) whose fan-out stage is reached, and for EVERY completion order
of the concurrent per-chunk remote calls, the gathered merge equals
the pipeline's result, and that result is the blank-line-separated
concatenation of the successfully transcribed chunks' texts in
chunk-index (chronological) order — a failed chunk contributes
nothing, not even a placeholder. -/
theorem chunked_merge_index_order_invariant (f : AudioFile) (m dur : ℚ)
    (order : List Nat)
    (hsize : ¬ f.sizeBytes / (1024 * 1024) ≤ m)
    (hprobe : f.probe = some dur)
    (hdur : ¬ m * (85 / 100) / (f.sizeBytes / (1024 * 1024)) * dur < 30)
    (hsplit : f.splitOk = true) (hne : f.chunks.isEmpty = false)
    (hperm : order.Perm (List.range f.chunks.length)) :
    gatherMergeOrdered (taskResults true m 0 f) order
        = (MediaService.transcribe_audio true f m).1
      ∧ (MediaService.transcribe_audio true f m).1
          = (if (successTexts true m 0 f).isEmpty then none
             else some (String.intercalate "\n\n" (successTexts true m 0 f))) := by
  have hlen : (taskResults true m 0 f).length = f.chunks.length := by
    unfold taskResults
    rw [List.length_map]
  have hperm2 : order.Perm (List.range (taskResults true m 0 f).length) := by
    rw [hlen]
    exact hperm
  have hmain : (MediaService.transcribe_audio true f m).1
      = (if (successTexts true m 0 f).isEmpty then none
         else some (String.intercalate "\n\n" (successTexts true m 0 f))) := by
    unfold MediaService.transcribe_audio
    rw [if_neg hsize,
      transcribeWithChunking_fanout f m 0 dur (by omega) hprobe hdur hsplit hne,
      mergeOutcomes_fst]
  refine ⟨?_, hmain⟩
  unfold gatherMergeOrdered
  rw [gatherTranscriptions_of_perm (taskResults true m 0 f) order hperm2, hmain]
  rfl

/-- A 1 MB chunk transcribing to "alpha". -/
def chunkAlpha : AudioFile := .mk 1048576 none true [] (some (ApiResponse.ok "alpha"))

/-- A 1 MB chunk transcribing to "gamma". -/
def chunkGamma : AudioFile := .mk 1048576 none true [] (some (ApiResponse.ok "gamma"))

/-- A 30 MB source splitting into three chunks, the middle one
failing. -/
def orderFile : AudioFile := .mk 31457280 (some 3600) true [chunkAlpha, failChunk, chunkGamma] none

/-- Witness for C1 at a three-chunk plan with the out-of-order
completion schedule [2, 0, 1]. -/
theorem chunked_merge_index_order_invariant_witness :
    gatherMergeOrdered (taskResults true 10 0 orderFile) [2, 0, 1]
        = (MediaService.transcribe_audio true orderFile 10).1
      ∧ (MediaService.transcribe_audio true orderFile 10).1
          = (if (successTexts true 10 0 orderFile).isEmpty then none
             else some (String.intercalate "\n\n" (successTexts true 10 0 orderFile))) :=
  chunked_merge_index_order_invariant orderFile 10 3600 [2, 0, 1]
    (by norm_num [orderFile, AudioFile.sizeBytes]) rfl
    (by norm_num [orderFile, AudioFile.sizeBytes]) rfl rfl
    (by
      have hlen : orderFile.chunks.length = 3 := rfl
      rw [hlen]
      decide)

end VoiceTranscript
